import Mathlib

/-!
Verification of the training/evaluation orchestration core of a
super-resolution project, shallowly embedded from the two Python sources
(trainer.py and tester.py).  Pure ℚ arithmetic stands for Python floats,
lists stand for tensors/arrays; external collaborators (model forward
pass, PIL resampler, metric computation, validation pass) are parameters.
-/

section
attribute [local semireducible] Rat.mul Rat.add Rat.sub Rat.inv

/-- Truncation toward zero, the semantics of the Python builtin int() on a
numeric value. -/
def pyInt (q : ℚ) : ℤ := if 0 ≤ q then ⌊q⌋ else ⌈q⌉

/-- Round-half-to-even at integer precision, the semantics of the Python
builtin round(). -/
def roundHalfEven (q : ℚ) : ℤ :=
  let f := ⌊q⌋
  let r := q - (f : ℚ)
  if r < 1 / 2 then f
  else if 1 / 2 < r then f + 1
  else if f % 2 = 0 then f else f + 1

/-- Python round(q, n): round-half-to-even at n decimal digits. -/
def pyRound (q : ℚ) (n : ℕ) : ℚ := (roundHalfEven (q * 10 ^ n) : ℚ) / 10 ^ n

/-- Fuel-driven worker for replaceChars; the fuel bounds the number of
characters still to be consumed, so any fuel of at least the list length
realizes the untruncated recursion. -/
def replaceCharsAux (pat rep : List Char) : ℕ → List Char → List Char
  | _, [] => []
  | 0, s => s
  | fuel + 1, c :: cs =>
    if 0 < pat.length ∧ pat.isPrefixOf (c :: cs) then
      rep ++ replaceCharsAux pat rep fuel ((c :: cs).drop pat.length)
    else
      c :: replaceCharsAux pat rep fuel cs

/-- Replacement of every non-overlapping occurrence of a pattern in a
character list, left to right, the semantics of Python str.replace. -/
def replaceChars (pat rep : List Char) (s : List Char) : List Char :=
  replaceCharsAux pat rep s.length s

/-- Python s.replace(old, new) on strings. -/
def pyReplace (s old new : String) : String :=
  String.mk (replaceChars old.data new.data s.data)

/-- A floating-point image with channels-last layout flattened into a list
of rational pixel values; h and w are shape[0] and shape[1]. -/
structure Img where
  h : ℕ
  w : ℕ
  data : List ℚ
deriving DecidableEq

instance : Inhabited Img := ⟨⟨0, 0, []⟩⟩

/-- An 8-bit unsigned-integer image, as produced by astype(np.uint8). -/
structure UImg where
  h : ℕ
  w : ℕ
  data : List ℕ
deriving DecidableEq

instance : Inhabited UImg := ⟨⟨0, 0, []⟩⟩

/-- One pixel of the conversion (image * 255).astype(np.uint8): truncation
toward zero followed by wrap-around into the uint8 range. -/
def quantByte (q : ℚ) : ℕ := ((pyInt (q * 255)) % 256).toNat

/-- The whole-image conversion (image * 255).astype(np.uint8). -/
def quantImg (img : Img) : UImg := ⟨img.h, img.w, img.data.map quantByte⟩

/-- One pixel of np.clip(v * 255, 0, 255).astype(np.uint8), the
post-processing applied to each output image before saving. -/
def clipQuant (q : ℚ) : ℕ := (pyInt (min (max (q * 255) 0) 255)).toNat

/-- The whole-image post-processing np.clip(img * 255, 0, 255)
.astype(np.uint8) performed in Tester.test before Image.save. -/
def saveImg (img : Img) : UImg := ⟨img.h, img.w, img.data.map clipQuant⟩

/-- External PIL bicubic resampler: given target width and height, a source
uint8 image and a pixel position, yields the resampled byte value.  PIL
resize returns an array of exactly the requested size, which the embedding
realizes structurally in resizeImg. -/
def Resampler : Type := ℕ → ℕ → UImg → ℕ → ℕ → ℕ

/-- PIL Image.resize((uw, uh), BICUBIC) on a uint8 image: an image of the
requested size whose pixels come from the external resampler. -/
def resizeImg (R : Resampler) (uw uh : ℕ) (src : UImg) : UImg :=
  ⟨uh, uw, ((List.range uh).map (fun i => (List.range uw).map (fun j => R uw uh src i j))).flatten⟩

/-- The body of Tester.__bicubic_upscale for one image of the batch:
sizes computed with int(dim * scale), conversion to uint8, bicubic resize,
then division by 255 back into floats. -/
def upscaleOne (R : Resampler) (scale : ℚ) (image : Img) : Img :=
  let height := image.h
  let width := image.w
  let upscaled_height := (pyInt ((height : ℚ) * scale)).toNat
  let upscaled_width := (pyInt ((width : ℚ) * scale)).toNat
  let image_255 := quantImg image
  let resized := resizeImg R upscaled_width upscaled_height image_255
  ⟨upscaled_height, upscaled_width, resized.data.map (fun (v : ℕ) => (v : ℚ) / 255)⟩

/-- Tester.__bicubic_upscale: the per-image upscale mapped over the batch. -/
def bicubic_upscale (R : Resampler) (lr : List Img) (scale : ℚ) : List Img :=
  lr.map (upscaleOne R scale)

/-- Errors that can surface out of Tester.test: the explicit
InvalidTestModeException raised on an unknown testing mode, and the
ZeroDivisionError hit when averaging over an empty test set. -/
inductive TErr where
  | invalidTestMode
  | zeroDivision
deriving DecidableEq

/-- One batch yielded by the test dataloader: per-sample file names, the
scale factor, and the low-resolution and high-resolution image batches. -/
structure TBatch where
  fileNames : List String
  scale : ℚ
  lr : List Img
  hr : List Img
deriving DecidableEq

/-- The running accumulation of Tester.test: metric sums, the sample count,
the image files written so far, the side-by-side comparison pairs, and the
error that aborted the loop, when one was raised. -/
structure TestAcc where
  psnrSum : ℚ
  ssimSum : ℚ
  samples : ℕ
  writes : List (String × UImg)
  comparisons : List (Img × Img)
  err : Option TErr
deriving DecidableEq

def initTestAcc : TestAcc := ⟨0, 0, 0, [], [], none⟩

/-- The output path used when saving a sample of the batch in Tester.test:
the code interpolates file_name[0] with ".jpg" replaced by ".png" for every
sample of the batch. -/
def saveName (names : List String) : String :=
  "tests/" ++ pyReplace (names.headD "") ".jpg" ".png"

/-- The files written by the inner save loop of Tester.test for one batch:
one write per generated image, each clipped and quantized, each under the
name derived from file_name[0]. -/
def batchOutputs (b : TBatch) (sr : List Img) : List (String × UImg) :=
  sr.map (fun img => (saveName b.fileNames, saveImg img))

/-- The straight-line part of one iteration of the loop in Tester.test once
the generated batch sr is known: save each output image, accumulate the
metrics of the batch, and append the side-by-side comparison pair. -/
def testStep (M : List Img → List Img → List ℚ × List ℚ) (b : TBatch) (sr : List Img)
    (acc : TestAcc) : TestAcc :=
  let writes := acc.writes ++ batchOutputs b sr
  let psnr := (M b.hr sr).1
  let ssim := (M b.hr sr).2
  { psnrSum := acc.psnrSum + psnr.sum
    ssimSum := acc.ssimSum + ssim.sum
    samples := acc.samples + b.lr.length
    writes := writes
    comparisons := acc.comparisons ++ [(sr.headD default, b.hr.headD default)]
    err := acc.err }

/-- The batch loop of Tester.test: in mode "model" the generated batch is
the model forward pass, in mode "bicubic" it is the bicubic upscale, and
any other mode raises InvalidTestModeException, which aborts the loop with
the accumulation as it stood. -/
def testBatches (R : Resampler) (modelF : List Img → ℚ → List Img)
    (M : List Img → List Img → List ℚ × List ℚ) (mode : String) :
    List TBatch → TestAcc → TestAcc
  | [], acc => acc
  | b :: rest, acc =>
    if mode = "model" then
      testBatches R modelF M mode rest (testStep M b (modelF b.lr b.scale) acc)
    else if mode = "bicubic" then
      testBatches R modelF M mode rest (testStep M b (bicubic_upscale R b.lr b.scale) acc)
    else
      { acc with err := some TErr.invalidTestMode }

/-- The observable outcome of Tester.test: the final averaged metrics when
the pass succeeded, the error when it raised, and the writes, comparisons
and sample count accumulated up to that point. -/
structure TestOutcome where
  psnr : ℚ
  ssim : ℚ
  samples : ℕ
  writes : List (String × UImg)
  comparisons : List (Img × Img)
  err : Option TErr
deriving DecidableEq

/-- Tester.test: run the batch loop, then average the accumulated metric
sums with round(·, 2) and round(·, 4); an empty pass hits the division by
zero of test_psnr / test_samples. -/
def test (R : Resampler) (modelF : List Img → ℚ → List Img)
    (M : List Img → List Img → List ℚ × List ℚ) (mode : String)
    (batches : List TBatch) : TestOutcome :=
  let acc := testBatches R modelF M mode batches initTestAcc
  match acc.err with
  | some e => ⟨0, 0, acc.samples, acc.writes, acc.comparisons, some e⟩
  | none =>
    if acc.samples = 0 then ⟨0, 0, 0, acc.writes, acc.comparisons, some TErr.zeroDivision⟩
    else
      ⟨pyRound (acc.psnrSum / (acc.samples : ℚ)) 2, pyRound (acc.ssimSum / (acc.samples : ℚ)) 4,
        acc.samples, acc.writes, acc.comparisons, none⟩

/-- The optimizer's persistable state: an abstract token for its internal
moment buffers (which only the external optimizer evolves) together with
the learning-rate field of each parameter group, both of which
state_dict() serializes and load_state_dict() restores. -/
structure OptState where
  internal : ℕ
  param_group_lrs : List ℚ
deriving DecidableEq

/-- The attributes of the Trainer object that the orchestration core reads
and writes: the tracked learning rate, the model weights (an abstract
token evolved by one external gradient step per optimizer.step call), and
the optimizer state. -/
structure TState where
  learning_rate : ℚ
  model_weights : ℕ
  opt : OptState
deriving DecidableEq

/-- The metadata dictionary assembled at a checkpoint boundary in
Trainer.train, before checkpoint_save adds the weights. -/
structure CkptInfo where
  learning_rate : ℚ
  epochs : ℕ
  steps : ℕ
  best_train_psnr : ℚ
  best_train_ssim : ℚ
  best_val_psnr : ℚ
  best_val_ssim : ℚ
deriving DecidableEq

/-- The persisted checkpoint: the metadata plus the model and optimizer
state dicts that checkpoint_save adds before writing. -/
structure Checkpoint where
  info : CkptInfo
  model_weights : ℕ
  optimizer_weights : OptState
deriving DecidableEq

/-- The slice of the filesystem the trainer touches: the checkpoint
directory (none when it does not exist, else its files with contents) and
the final model file written by Trainer.save. -/
structure FS where
  ckptDir : Option (List (String × Checkpoint))
  finalModel : Option ℕ
deriving DecidableEq

/-- os.remove of one named file inside the checkpoint directory. -/
def removeFile (d : List (String × Checkpoint)) (name : String) : List (String × Checkpoint) :=
  d.filter (fun p => !(p.1 == name))

/-- Writing a named file into the checkpoint directory, replacing any
existing file of that name. -/
def writeFile (d : List (String × Checkpoint)) (name : String) (c : Checkpoint) :
    List (String × Checkpoint) :=
  removeFile d name ++ [(name, c)]

/-- Reading a named file from the checkpoint directory. -/
def lookupFile (d : List (String × Checkpoint)) (name : String) : Option Checkpoint :=
  (d.find? (fun p => p.1 == name)).map (fun p => p.2)

/-- The configuration surface Trainer.train consumes. -/
structure Config where
  learning_rate : ℚ
  min_learning_rate : ℚ
  halving_steps : ℕ
  checkpoint_every : ℕ
  max_training_steps : ℕ
  load_checkpoint : Bool
  restart_steps_count : Bool
  checkpoint_file : String
deriving DecidableEq

/-- Trainer.__init__ as far as the orchestration core observes it: the
tracked learning rate starts at the configured value, the optimizer is
built with one parameter group at that rate, and the freshly initialized
model and optimizer tokens are externally given. -/
def trainerInit (cfg : Config) (w0 o0 : ℕ) : TState :=
  ⟨cfg.learning_rate, w0, ⟨o0, [cfg.learning_rate]⟩⟩

/-- Trainer.checkpoint_save: create the checkpoint directory if missing,
add the model and optimizer state dicts to the metadata, delete every file
currently in the directory, then write the snapshot under the configured
checkpoint file name. -/
def checkpoint_save (cfg : Config) (info : CkptInfo) (ts : TState) (fs : FS) : FS :=
  let dir0 := fs.ckptDir.getD []
  let ckpt : Checkpoint := ⟨info, ts.model_weights, ts.opt⟩
  let dir1 := dir0.foldl (fun d f => removeFile d f.1) dir0
  { fs with ckptDir := some (writeFile dir1 (cfg.checkpoint_file ++ ".pt") ckpt) }

/-- Trainer.checkpoint_load: when the checkpoint directory and the
checkpoint file both exist, restore model and optimizer state from the
file and return its contents; otherwise return the empty dict and leave
the trainer untouched. -/
def checkpoint_load (cfg : Config) (ts : TState) (fs : FS) : Option Checkpoint × TState :=
  match fs.ckptDir with
  | none => (none, ts)
  | some d =>
    match lookupFile d (cfg.checkpoint_file ++ ".pt") with
    | none => (none, ts)
    | some c => (some c, { ts with model_weights := c.model_weights, opt := c.optimizer_weights })

/-- Trainer.save: persist the current model weights as the final model
artifact. -/
def save_model (ts : TState) (fs : FS) : FS := { fs with finalModel := some ts.model_weights }

/-- The state threaded through the training loop of Trainer.train: the
trainer attributes, the filesystem, the local counters and best metrics,
the finished flag, and a trace counter of the optimizer steps performed by
this invocation of train(). -/
structure LoopSt where
  ts : TState
  fs : FS
  steps : ℕ
  epochs : ℕ
  best_train_psnr : ℚ
  best_train_ssim : ℚ
  best_val_psnr : ℚ
  best_val_ssim : ℚ
  finished : Bool
  optStepsThisRun : ℕ
deriving DecidableEq

/-- The per-epoch accumulators of Trainer.train (training loss, sample
count and metric sums), reset at the top of each epoch. -/
structure EpochAcc where
  train_loss : ℚ
  train_samples : ℕ
  train_psnr : ℚ
  train_ssim : ℚ
deriving DecidableEq

/-- One training batch as the orchestration core observes it: the batch
size reported by the tensor, and the externally computed loss value and
per-sample metric arrays for this pass of the batch. -/
structure TrBatch where
  batch_size : ℕ
  loss : ℚ
  psnr : List ℚ
  ssim : List ℚ
deriving DecidableEq

/-- The entry block of Trainer.train (loading the checkpoint when
requested): a loaded checkpoint restores epochs, best metrics and, unless
restart_steps_count is set, the learning rate and step counter; with
restart_steps_count the rate is reset to the configured initial value,
pushed into every parameter group, and the step counter restarts at 0.  A
missing checkpoint, or load_checkpoint unset, starts every counter at 0. -/
def trainInit (cfg : Config) (ts0 : TState) (fs0 : FS) : LoopSt :=
  if cfg.load_checkpoint then
    match checkpoint_load cfg ts0 fs0 with
    | (some ck, ts1) =>
      if cfg.restart_steps_count then
        let lr := cfg.learning_rate
        let opt1 : OptState := ⟨ts1.opt.internal, ts1.opt.param_group_lrs.map (fun _ => lr)⟩
        let ts2 : TState := ⟨lr, ts1.model_weights, opt1⟩
        ⟨ts2, fs0, 0, ck.info.epochs, ck.info.best_train_psnr, ck.info.best_train_ssim,
          ck.info.best_val_psnr, ck.info.best_val_ssim, false, 0⟩
      else
        let ts2 : TState := ⟨ck.info.learning_rate, ts1.model_weights, ts1.opt⟩
        ⟨ts2, fs0, ck.info.steps, ck.info.epochs, ck.info.best_train_psnr,
          ck.info.best_train_ssim, ck.info.best_val_psnr, ck.info.best_val_ssim, false, 0⟩
    | (none, ts1) => ⟨ts1, fs0, 0, 0, 0, 0, 0, 0, false, 0⟩
  else ⟨ts0, fs0, 0, 0, 0, 0, 0, 0, false, 0⟩

/-- One iteration of the inner batch loop of Trainer.train: accumulate the
loss and metrics, take one optimizer step, increment the step counter,
halve the learning rate on a halving boundary (pushing the new rate into
every parameter group), write a checkpoint on a checkpoint boundary, and
set the finished flag once the step budget is reached. -/
def batchStep (cfg : Config) (st : LoopSt) (acc : EpochAcc) (b : TrBatch) : LoopSt × EpochAcc :=
  let acc1 : EpochAcc :=
    ⟨acc.train_loss + b.loss * (b.batch_size : ℚ), acc.train_samples + b.batch_size,
      acc.train_psnr + b.psnr.sum, acc.train_ssim + b.ssim.sum⟩
  let ts1 : TState :=
    { st.ts with model_weights := st.ts.model_weights + 1,
                 opt := { st.ts.opt with internal := st.ts.opt.internal + 1 } }
  let steps1 := st.steps + 1
  let ts2 : TState :=
    if steps1 % cfg.halving_steps = 0 then
      let halved_lr := ts1.learning_rate / 2
      let lr := max halved_lr cfg.min_learning_rate
      { ts1 with learning_rate := lr,
                 opt := { ts1.opt with param_group_lrs := ts1.opt.param_group_lrs.map (fun _ => lr) } }
    else ts1
  let st1 : LoopSt :=
    { st with ts := ts2, steps := steps1, optStepsThisRun := st.optStepsThisRun + 1 }
  let st2 : LoopSt :=
    if steps1 % cfg.checkpoint_every = 0 then
      let info : CkptInfo :=
        ⟨ts2.learning_rate, st.epochs, steps1, st.best_train_psnr, st.best_train_ssim,
          st.best_val_psnr, st.best_val_ssim⟩
      { st1 with fs := checkpoint_save cfg info ts2 st1.fs }
    else st1
  if st2.steps ≥ cfg.max_training_steps then ({ st2 with finished := true }, acc1)
  else (st2, acc1)

/-- The inner for-loop of Trainer.train over the training dataloader,
including the break taken right after the step budget is reached. -/
def runEpoch (cfg : Config) : List TrBatch → LoopSt → EpochAcc → LoopSt × EpochAcc
  | [], st, acc => (st, acc)
  | b :: rest, st, acc =>
    let r := batchStep cfg st acc b
    if r.1.finished then r else runEpoch cfg rest r.1 r.2

/-- The epoch bookkeeping at the bottom of the while-loop body of
Trainer.train: average the epoch metrics with round(·, 2) and round(·, 4),
run the validation pass, take element-wise maxima into the best-so-far
metrics, and increment the epoch counter. -/
def epochEnd (valRes : ℕ → ℚ × ℚ) (st : LoopSt) (acc : EpochAcc) : LoopSt :=
  let train_psnr := pyRound (acc.train_psnr / (acc.train_samples : ℚ)) 2
  let train_ssim := pyRound (acc.train_ssim / (acc.train_samples : ℚ)) 4
  let val_psnr := (valRes st.epochs).1
  let val_ssim := (valRes st.epochs).2
  { st with
    best_train_psnr := max st.best_train_psnr train_psnr
    best_train_ssim := max st.best_train_ssim train_ssim
    best_val_psnr := max st.best_val_psnr val_psnr
    best_val_ssim := max st.best_val_ssim val_ssim
    epochs := st.epochs + 1 }

/-- The while-loop of Trainer.train, driven by an epoch fuel: none means
the fuel ran out before the training finished. -/
def trainLoop (cfg : Config) (batches : List TrBatch) (valRes : ℕ → ℚ × ℚ) :
    ℕ → LoopSt → Option LoopSt
  | 0, _ => none
  | fuel + 1, st =>
    if st.finished then some st
    else
      let r := runEpoch cfg batches st ⟨0, 0, 0, 0⟩
      trainLoop cfg batches valRes fuel (epochEnd valRes r.1 r.2)

/-- Trainer.train: initialize (optionally from the checkpoint), loop over
epochs until the step budget is reached, then persist the final model. -/
def train (cfg : Config) (batches : List TrBatch) (valRes : ℕ → ℚ × ℚ)
    (ts0 : TState) (fs0 : FS) (fuel : ℕ) : Option LoopSt :=
  (trainLoop cfg batches valRes fuel (trainInit cfg ts0 fs0)).map
    (fun st => { st with fs := save_model st.ts st.fs })

/-- The checkpoint currently persisted on disk for a configuration, when
directory and file both exist. -/
def persistedCkpt (cfg : Config) (fs : FS) : Option Checkpoint :=
  fs.ckptDir.bind (fun d => lookupFile d (cfg.checkpoint_file ++ ".pt"))

/-- Concrete configuration of the end-to-end scenario: a 1-sample dataset,
max_training_steps = 3, checkpoint_every = 1, halving far away. -/
def cfgA : Config := ⟨1, 1 / 100, 10, 1, 3, false, false, "ckpt"⟩

/-- The same configuration with load_checkpoint set, for the restarted run. -/
def cfgAResume : Config := { cfgA with load_checkpoint := true }

/-- The 1-sample training dataset with externally given loss and metrics. -/
def dsA : List TrBatch := [⟨1, 1 / 2, [30], [9 / 10]⟩]

/-- Externally given validation results for the scenario. -/
def valResA : ℕ → ℚ × ℚ := fun _ => (25, 4 / 5)

/-- An initially empty filesystem: no checkpoint directory, no final model. -/
def fsEmpty : FS := ⟨none, none⟩

/-- The first end-to-end run of the scenario. -/
def runA : Option LoopSt := train cfgA dsA valResA (trainerInit cfgA 0 0) fsEmpty 10

/-- The restarted run: a fresh process (fresh trainer state) over the
filesystem the first run left behind, with load_checkpoint set. -/
def runAResume : Option LoopSt :=
  match runA with
  | some st => train cfgAResume dsA valResA (trainerInit cfgAResume 0 0) st.fs 10
  | none => none

/-- A trivial concrete resampler standing in for PIL bicubic in concrete
evaluations. -/
def R0 : Resampler := fun _ _ _ _ _ => 0

/-- A trivial concrete model forward pass for concrete evaluations. -/
def modelF0 : List Img → ℚ → List Img := fun lr _ => lr

/-- A trivial concrete metric function for concrete evaluations: one score
per reference sample. -/
def M0 : List Img → List Img → List ℚ × List ℚ :=
  fun hr _ => (hr.map (fun _ => 30), hr.map (fun _ => 1))

/-- A 1-pixel image with value 1/3. -/
def img1 : Img := ⟨1, 1, [1 / 3]⟩

/-- A 1-pixel image with value 0.335: different from img1 but equal to it
after 8-bit quantization. -/
def img1q : Img := ⟨1, 1, [67 / 200]⟩

/-- A 4-by-4 zero image. -/
def img4 : Img := ⟨4, 4, List.replicate 16 0⟩

/-- A singleton test batch. -/
def tb1 : TBatch := ⟨["a.jpg"], 2, [img1], [img1]⟩

/-- A 2-sample test batch whose samples carry distinct file names. -/
def tb2 : TBatch := ⟨["a.jpg", "b.jpg"], 2, [img1, img1q], [img1, img1q]⟩

/-- The flattened per-sample PSNR scores a model-mode evaluation pass
accumulates, batch by batch, as the specification describes them. -/
def perSamplePsnr (modelF : List Img → ℚ → List Img)
    (M : List Img → List Img → List ℚ × List ℚ) (batches : List TBatch) : List ℚ :=
  (batches.map (fun b => (M b.hr (modelF b.lr b.scale)).1)).flatten

/-- The flattened per-sample SSIM scores of a model-mode evaluation pass. -/
def perSampleSsim (modelF : List Img → ℚ → List Img)
    (M : List Img → List Img → List ℚ × List ℚ) (batches : List TBatch) : List ℚ :=
  (batches.map (fun b => (M b.hr (modelF b.lr b.scale)).2)).flatten

theorem removeAll_of_covered (work : List (String × Checkpoint)) :
    ∀ d : List (String × Checkpoint), (∀ p ∈ d, ∃ f ∈ work, p.1 = f.1) →
      List.foldl (fun d f => removeFile d f.1) d work = [] := by
  induction work with
  | nil =>
    intro d h
    cases d with
    | nil => rfl
    | cons p ps =>
      obtain ⟨f, hf, _⟩ := h p (by simp)
      simp at hf
  | cons f fs ih =>
    intro d h
    simp only [List.foldl_cons]
    apply ih
    intro p hp
    have hmem : p ∈ d ∧ ¬p.1 = f.1 := by
      simpa [removeFile] using hp
    obtain ⟨g, hg, hpg⟩ := h p hmem.1
    rcases List.mem_cons.mp hg with hgf | hgfs
    · exact absurd (hpg.trans (congrArg Prod.fst hgf)) hmem.2
    · exact ⟨g, hgfs, hpg⟩

theorem checkpoint_save_eq (cfg : Config) (info : CkptInfo) (ts : TState) (fs : FS) :
    checkpoint_save cfg info ts fs =
      ⟨some [(cfg.checkpoint_file ++ ".pt", ⟨info, ts.model_weights, ts.opt⟩)],
        fs.finalModel⟩ := by
  have h := removeAll_of_covered (fs.ckptDir.getD []) (fs.ckptDir.getD [])
    (fun p hp => ⟨p, hp, rfl⟩)
  simp only [checkpoint_save]
  rw [h]
  simp [writeFile, removeFile]

/-- Claim C4: every call to checkpoint_save first deletes every file currently
in the checkpoint directory and then writes the new snapshot, so after any
save the checkpoint directory holds exactly the one new checkpoint file,
whatever the directory held before. -/
theorem C4_single_slot_retention (cfg : Config) (info : CkptInfo) (ts : TState) (fs : FS) :
    (checkpoint_save cfg info ts fs).ckptDir =
      some [(cfg.checkpoint_file ++ ".pt", ⟨info, ts.model_weights, ts.opt⟩)] := by
  rw [checkpoint_save_eq]

/-- Claim C2: checkpoint_save followed by checkpoint_load on the same store with
no intervening save returns exactly the saved counters, best metrics,
model parameters and optimizer state, and restores model and optimizer
state into the trainer as a side effect before returning. -/
theorem C2_checkpoint_round_trip (cfg : Config) (info : CkptInfo) (ts ts2 : TState) (fs : FS) :
    checkpoint_load cfg ts2 (checkpoint_save cfg info ts fs) =
      (some ⟨info, ts.model_weights, ts.opt⟩,
        ⟨ts2.learning_rate, ts.model_weights, ts.opt⟩) := by
  rw [checkpoint_save_eq]
  simp [checkpoint_load, lookupFile]

/-- Claim C9: when the checkpoint directory or the checkpoint file is missing,
checkpoint_load returns the explicit empty result without touching the
trainer, and train()'s entry block then starts from a fresh state: all
counters and best metrics zero and the learning rate at the configured
initial value (set by the constructor). -/
theorem C9_missing_checkpoint_fresh_start (cfg : Config) (ts : TState) (fs : FS) (w0 o0 : ℕ)
    (h : persistedCkpt cfg fs = none) :
    checkpoint_load cfg ts fs = (none, ts) ∧
    trainInit cfg (trainerInit cfg w0 o0) fs =
      ⟨trainerInit cfg w0 o0, fs, 0, 0, 0, 0, 0, 0, false, 0⟩ ∧
    (trainerInit cfg w0 o0).learning_rate = cfg.learning_rate := by
  have hload : ∀ ts' : TState, checkpoint_load cfg ts' fs = (none, ts') := by
    intro ts'
    unfold checkpoint_load
    unfold persistedCkpt at h
    cases hd : fs.ckptDir with
    | none => rfl
    | some d =>
      rw [hd] at h
      have h2 : lookupFile d (cfg.checkpoint_file ++ ".pt") = none := by simpa using h
      simp [h2]
  refine ⟨hload ts, ?_, rfl⟩
  unfold trainInit
  rw [hload (trainerInit cfg w0 o0)]
  cases cfg.load_checkpoint <;> rfl

/-- Claim C9 witness: the fresh-start behavior evaluated on the concrete resume
configuration over an empty filesystem. -/
theorem C9_missing_checkpoint_fresh_start_witness :
    persistedCkpt cfgAResume fsEmpty = none ∧
    (checkpoint_load cfgAResume (trainerInit cfgAResume 0 0) fsEmpty =
        (none, trainerInit cfgAResume 0 0) ∧
      trainInit cfgAResume (trainerInit cfgAResume 0 0) fsEmpty =
        ⟨trainerInit cfgAResume 0 0, fsEmpty, 0, 0, 0, 0, 0, 0, false, 0⟩ ∧
      (trainerInit cfgAResume 0 0).learning_rate = cfgAResume.learning_rate) :=
  ⟨by decide,
    C9_missing_checkpoint_fresh_start cfgAResume (trainerInit cfgAResume 0 0) fsEmpty 0 0
      (by decide)⟩

/-- Claim C1 counterexample: in the concrete end-to-end scenario (1-sample
dataset, max_training_steps = 3, checkpoint_every = 1), the restarted run
with load_checkpoint set does not perform zero additional optimizer
steps: it performs exactly one, because the budget check sits after the
optimizer step at the bottom of the batch loop. -/
theorem C1_counterexample_restart_takes_a_step :
    ¬ runAResume.map (fun st => st.optStepsThisRun) = some 0 ∧
    runAResume.map (fun st => st.optStepsThisRun) = some 1 := by decide

/-- Claim C1 amended: after the first train() the persisted checkpoint's steps
field equals 3 and a final model file exists; restarting train() with
load_checkpoint set and the same budget performs exactly one additional
optimizer step (the budget is only checked after a completed step), writes
a checkpoint recording steps = 4, and then exits, saving a final model. -/
theorem C1_resume_scenario :
    runA.bind (fun st => (persistedCkpt cfgA st.fs).map (fun c => c.info.steps)) = some 3 ∧
    runA.map (fun st => st.fs.finalModel.isSome) = some true ∧
    runAResume.map (fun st => st.optStepsThisRun) = some 1 ∧
    runAResume.bind (fun st => (persistedCkpt cfgAResume st.fs).map (fun c => c.info.steps)) =
      some 4 ∧
    runAResume.map (fun st => st.fs.finalModel.isSome) = some true := by decide

/-- Claim C3: at every step taken in the batch loop, when the new step count is
a multiple of halving_steps the post-step learning rate is
max(previous rate / 2, min_learning_rate) and that rate is written into
every optimizer parameter group; otherwise rate and groups are unchanged. -/
theorem C3_lr_halving_schedule (cfg : Config) (st : LoopSt) (acc : EpochAcc) (b : TrBatch) :
    ((batchStep cfg st acc b).1.ts.learning_rate =
      if (st.steps + 1) % cfg.halving_steps = 0 then
        max (st.ts.learning_rate / 2) cfg.min_learning_rate
      else st.ts.learning_rate) ∧
    ((batchStep cfg st acc b).1.ts.opt.param_group_lrs =
      if (st.steps + 1) % cfg.halving_steps = 0 then
        st.ts.opt.param_group_lrs.map
          (fun _ => max (st.ts.learning_rate / 2) cfg.min_learning_rate)
      else st.ts.opt.param_group_lrs) := by
  by_cases h1 : (st.steps + 1) % cfg.halving_steps = 0 <;>
    by_cases h2 : (st.steps + 1) % cfg.checkpoint_every = 0 <;>
      by_cases h3 : cfg.max_training_steps ≤ st.steps + 1 <;>
        simp [batchStep, h1, h2, h3]

/-- Claim C5: for every mode other than "model" and "bicubic", Tester.test
raises the invalid-test-mode error on the first batch, before any sample
is processed: no output is written, no sample is counted, no comparison
is built, and the loop is never retried. -/
theorem C5_invalid_mode_raises (R : Resampler) (modelF : List Img → ℚ → List Img)
    (M : List Img → List Img → List ℚ × List ℚ) (mode : String) (batches : List TBatch)
    (hm : mode ≠ "model") (hb : mode ≠ "bicubic") (hne : batches ≠ []) :
    (test R modelF M mode batches).err = some TErr.invalidTestMode ∧
    (test R modelF M mode batches).writes = [] ∧
    (test R modelF M mode batches).samples = 0 ∧
    (test R modelF M mode batches).comparisons = [] := by
  cases batches with
  | nil => exact absurd rfl hne
  | cons b rest => simp [test, testBatches, hm, hb, initTestAcc]

/-- Claim C5 witness: the invalid mode "psnr" on a concrete nonempty loader. -/
theorem C5_invalid_mode_raises_witness :
    (("psnr" : String) ≠ "model" ∧ ("psnr" : String) ≠ "bicubic" ∧ ([tb1] : List TBatch) ≠ []) ∧
    ((test R0 modelF0 M0 "psnr" [tb1]).err = some TErr.invalidTestMode ∧
      (test R0 modelF0 M0 "psnr" [tb1]).writes = [] ∧
      (test R0 modelF0 M0 "psnr" [tb1]).samples = 0 ∧
      (test R0 modelF0 M0 "psnr" [tb1]).comparisons = []) :=
  ⟨⟨by decide, by decide, by decide⟩,
    C5_invalid_mode_raises R0 modelF0 M0 "psnr" [tb1] (by decide) (by decide) (by decide)⟩

/-- Claim C7: evaluating Tester.test at a concrete 2-sample final-test batch
with file names "a.jpg" and "b.jpg": the save loop writes both generated
images under the first sample's name tests/a.png, so the second write
clobbers the first and no file named after "b.jpg" ever appears. -/
theorem C7_bug_outputs_named_after_first_sample :
    (test R0 modelF0 M0 "bicubic" [tb2]).writes.map Prod.fst =
      ["tests/a.png", "tests/a.png"] := by decide

theorem resizeImg_data_length (R : Resampler) (uw uh : ℕ) (src : UImg) :
    (resizeImg R uw uh src).data.length = uh * uw := by
  unfold resizeImg
  rw [List.length_flatten]
  have h : (List.map (List.length ∘ fun i => List.map (fun j => R uw uh src i j)
      (List.range uw)) (List.range uh)) = List.replicate uh uw := by
    simp [Function.comp, List.eq_replicate_iff]
  simp [List.map_map, h, List.sum_replicate, Nat.mul_comm]

theorem clipQuant_le (q : ℚ) : clipQuant q ≤ 255 := by
  unfold clipQuant pyInt
  have h0 : (0 : ℚ) ≤ min (max (q * 255) 0) 255 := le_min (le_max_right _ _) (by norm_num)
  rw [if_pos h0]
  have h1 : min (max (q * 255) 0) 255 ≤ (255 : ℚ) := min_le_right _ _
  have h2 : ⌊min (max (q * 255) 0) 255⌋ ≤ (255 : ℤ) := by
    calc ⌊min (max (q * 255) 0) 255⌋ ≤ ⌊(255 : ℚ)⌋ := Int.floor_le_floor h1
    _ = 255 := by norm_num
  omega

theorem map_clipQuant_all_le (l : List ℚ) :
    (l.map clipQuant).all (fun v => decide (v ≤ 255)) = true := by
  induction l with
  | nil => rfl
  | cons a t ih => simp_all [clipQuant_le]

/-- Claim C6 counterexample: a 4-by-4 input at scale factor 1.4.  The code
computes the output height with int(4 * 1.4) = 5 (truncation), while the
claim's round(4 * 1.4) = 6, so the claimed output size is wrong. -/
theorem C6_counterexample_size_not_rounded :
    ((bicubic_upscale R0 [img4] (7 / 5)).headD default).h = 5 ∧
    round ((4 : ℚ) * (7 / 5)) = 6 := by
  constructor
  · decide
  · norm_num [round_eq]

/-- Claim C6 amended: in bicubic mode the persisted output image for an input of
size (H, W) at scale s has size (int(H * s), int(W * s)) — truncation
toward zero, not rounding — with exactly that many pixels, every one an
8-bit integer at most 255 after the clip-and-quantize post-processing. -/
theorem C6_baseline_output_shape_and_range (R : Resampler) (img : Img) (s : ℚ) :
    (saveImg ((bicubic_upscale R [img] s).headD default)).h =
      (pyInt ((img.h : ℚ) * s)).toNat ∧
    (saveImg ((bicubic_upscale R [img] s).headD default)).w =
      (pyInt ((img.w : ℚ) * s)).toNat ∧
    (saveImg ((bicubic_upscale R [img] s).headD default)).data.length =
      (pyInt ((img.h : ℚ) * s)).toNat * (pyInt ((img.w : ℚ) * s)).toNat ∧
    (saveImg ((bicubic_upscale R [img] s).headD default)).data.all
      (fun v => decide (v ≤ 255)) = true := by
  have hb : bicubic_upscale R [img] s = [upscaleOne R s img] := rfl
  rw [hb]
  refine ⟨rfl, rfl, ?_, ?_⟩
  · show ((upscaleOne R s img).data.map clipQuant).length = _
    rw [List.length_map]
    show ((resizeImg R (pyInt ((img.w : ℚ) * s)).toNat (pyInt ((img.h : ℚ) * s)).toNat
      (quantImg img)).data.map (fun (v : ℕ) => (v : ℚ) / 255)).length = _
    rw [List.length_map, resizeImg_data_length]
  · show ((upscaleOne R s img).data.map clipQuant).all _ = true
    exact map_clipQuant_all_le _

theorem upscaleOne_congr (R : Resampler) (s : ℚ) {x y : Img}
    (h : quantImg x = quantImg y) : upscaleOne R s x = upscaleOne R s y := by
  have hh : x.h = y.h := congrArg UImg.h h
  have hw : x.w = y.w := congrArg UImg.w h
  simp only [upscaleOne]
  rw [hh, hw, h]

/-- Claim C10: baseline inputs are pre-quantized to 8-bit before resampling, so
two low-resolution batches that agree after the (v * 255).astype(uint8)
quantization produce identical bicubic-upscale outputs, for any resampler
and scale factor: the baseline result depends only on the quantized
input. -/
theorem C10_baseline_quantization_invariance (R : Resampler) (a b : List Img) (s : ℚ)
    (h : a.map quantImg = b.map quantImg) :
    bicubic_upscale R a s = bicubic_upscale R b s := by
  induction a generalizing b with
  | nil =>
    cases b with
    | nil => rfl
    | cons y ys => simp at h
  | cons x xs ih =>
    cases b with
    | nil => simp at h
    | cons y ys =>
      simp only [List.map_cons, List.cons.injEq] at h
      simp only [bicubic_upscale, List.map_cons]
      have ht := ih ys h.2
      simp only [bicubic_upscale] at ht
      rw [upscaleOne_congr R s h.1, ht]

/-- Claim C10 witness: the 1-pixel images with values 1/3 and 0.335 differ but
quantize to the same byte, and their bicubic upscales coincide. -/
theorem C10_baseline_quantization_invariance_witness :
    ([img1].map quantImg = [img1q].map quantImg) ∧
    bicubic_upscale R0 [img1] 2 = bicubic_upscale R0 [img1q] 2 :=
  ⟨by decide, C10_baseline_quantization_invariance R0 [img1] [img1q] 2 (by decide)⟩

theorem testBatches_model_acc (R : Resampler) (modelF : List Img → ℚ → List Img)
    (M : List Img → List Img → List ℚ × List ℚ) :
    ∀ (batches : List TBatch) (acc : TestAcc), acc.err = none →
      (testBatches R modelF M "model" batches acc).err = none ∧
      (testBatches R modelF M "model" batches acc).psnrSum =
        acc.psnrSum + (perSamplePsnr modelF M batches).sum ∧
      (testBatches R modelF M "model" batches acc).ssimSum =
        acc.ssimSum + (perSampleSsim modelF M batches).sum ∧
      (testBatches R modelF M "model" batches acc).samples =
        acc.samples + (batches.map (fun b => b.lr.length)).sum := by
  intro batches
  induction batches with
  | nil =>
    intro acc h
    simp [testBatches, perSamplePsnr, perSampleSsim, h]
  | cons b rest ih =>
    intro acc h
    have hr := ih (testStep M b (modelF b.lr b.scale) acc) (by simp [testStep, h])
    have hT : testBatches R modelF M "model" (b :: rest) acc =
        testBatches R modelF M "model" rest (testStep M b (modelF b.lr b.scale) acc) := by
      simp [testBatches]
    rw [hT]
    refine ⟨hr.1, ?_, ?_, ?_⟩
    · rw [hr.2.1]
      simp [testStep, perSamplePsnr, add_assoc]
    · rw [hr.2.2.1]
      simp [testStep, perSampleSsim, add_assoc]
    · rw [hr.2.2.2]
      simp [testStep, Nat.add_assoc]

/-- Claim C8: for every non-empty model-mode evaluation pass whose metric
function yields one score per sample, the finalized metrics are the
arithmetic mean of the accumulated per-sample scores rounded to 2 (PSNR)
and 4 (SSIM) decimals; and at the end of every training epoch each of the
four best-so-far scalars equals the maximum of its previous value and the
epoch's finalized value, so best-so-far values never decrease. -/
theorem C8_metric_aggregation_and_bests :
    (∀ (R : Resampler) (modelF : List Img → ℚ → List Img)
        (M : List Img → List Img → List ℚ × List ℚ) (batches : List TBatch),
      (∀ b ∈ batches, (M b.hr (modelF b.lr b.scale)).1.length = b.lr.length ∧
          (M b.hr (modelF b.lr b.scale)).2.length = b.lr.length) →
      0 < (batches.map (fun b => b.lr.length)).sum →
      (test R modelF M "model" batches).err = none ∧
      (test R modelF M "model" batches).psnr =
        pyRound ((perSamplePsnr modelF M batches).sum /
          ((perSamplePsnr modelF M batches).length : ℚ)) 2 ∧
      (test R modelF M "model" batches).ssim =
        pyRound ((perSampleSsim modelF M batches).sum /
          ((perSampleSsim modelF M batches).length : ℚ)) 4) ∧
    (∀ (valRes : ℕ → ℚ × ℚ) (st : LoopSt) (acc : EpochAcc),
      (epochEnd valRes st acc).best_train_psnr =
        max st.best_train_psnr (pyRound (acc.train_psnr / (acc.train_samples : ℚ)) 2) ∧
      (epochEnd valRes st acc).best_train_ssim =
        max st.best_train_ssim (pyRound (acc.train_ssim / (acc.train_samples : ℚ)) 4) ∧
      (epochEnd valRes st acc).best_val_psnr = max st.best_val_psnr (valRes st.epochs).1 ∧
      (epochEnd valRes st acc).best_val_ssim = max st.best_val_ssim (valRes st.epochs).2 ∧
      st.best_train_psnr ≤ (epochEnd valRes st acc).best_train_psnr ∧
      st.best_train_ssim ≤ (epochEnd valRes st acc).best_train_ssim ∧
      st.best_val_psnr ≤ (epochEnd valRes st acc).best_val_psnr ∧
      st.best_val_ssim ≤ (epochEnd valRes st acc).best_val_ssim) := by
  constructor
  · intro R modelF M batches hlen hpos
    obtain ⟨he, hp, hs, hn⟩ := testBatches_model_acc R modelF M batches initTestAcc rfl
    have hp' : (testBatches R modelF M "model" batches initTestAcc).psnrSum =
        (perSamplePsnr modelF M batches).sum := by
      rw [hp]; simp [initTestAcc]
    have hs' : (testBatches R modelF M "model" batches initTestAcc).ssimSum =
        (perSampleSsim modelF M batches).sum := by
      rw [hs]; simp [initTestAcc]
    have hn' : (testBatches R modelF M "model" batches initTestAcc).samples =
        (batches.map (fun b => b.lr.length)).sum := by
      rw [hn]; simp [initTestAcc]
    have hn0 : ¬(testBatches R modelF M "model" batches initTestAcc).samples = 0 := by
      rw [hn']; omega
    have hlenP : (perSamplePsnr modelF M batches).length =
        (batches.map (fun b => b.lr.length)).sum := by
      unfold perSamplePsnr
      rw [List.length_flatten, List.map_map]
      exact congrArg List.sum (List.map_congr_left (fun b hb => (hlen b hb).1))
    have hlenS : (perSampleSsim modelF M batches).length =
        (batches.map (fun b => b.lr.length)).sum := by
      unfold perSampleSsim
      rw [List.length_flatten, List.map_map]
      exact congrArg List.sum (List.map_congr_left (fun b hb => (hlen b hb).2))
    have htest : test R modelF M "model" batches =
        ⟨pyRound ((testBatches R modelF M "model" batches initTestAcc).psnrSum /
            (((testBatches R modelF M "model" batches initTestAcc).samples : ℕ) : ℚ)) 2,
          pyRound ((testBatches R modelF M "model" batches initTestAcc).ssimSum /
            (((testBatches R modelF M "model" batches initTestAcc).samples : ℕ) : ℚ)) 4,
          (testBatches R modelF M "model" batches initTestAcc).samples,
          (testBatches R modelF M "model" batches initTestAcc).writes,
          (testBatches R modelF M "model" batches initTestAcc).comparisons, none⟩ := by
      simp only [test]
      rw [he]
      simp [hn0]
    rw [htest]
    refine ⟨rfl, ?_, ?_⟩
    · rw [hp', hn', hlenP]
    · rw [hs', hn', hlenS]
  · intro valRes st acc
    exact ⟨rfl, rfl, rfl, rfl, le_max_left _ _, le_max_left _ _, le_max_left _ _,
      le_max_left _ _⟩

/-- Claim C8 witness: the aggregation equality evaluated on a concrete 1-batch
model-mode pass. -/
theorem C8_metric_aggregation_and_bests_witness :
    ((∀ b ∈ ([tb1] : List TBatch),
        (M0 b.hr (modelF0 b.lr b.scale)).1.length = b.lr.length ∧
        (M0 b.hr (modelF0 b.lr b.scale)).2.length = b.lr.length) ∧
      0 < (([tb1] : List TBatch).map (fun b => b.lr.length)).sum) ∧
    ((test R0 modelF0 M0 "model" [tb1]).err = none ∧
      (test R0 modelF0 M0 "model" [tb1]).psnr =
        pyRound ((perSamplePsnr modelF0 M0 [tb1]).sum /
          ((perSamplePsnr modelF0 M0 [tb1]).length : ℚ)) 2 ∧
      (test R0 modelF0 M0 "model" [tb1]).ssim =
        pyRound ((perSampleSsim modelF0 M0 [tb1]).sum /
          ((perSampleSsim modelF0 M0 [tb1]).length : ℚ)) 4) :=
  ⟨⟨by decide, by decide⟩,
    C8_metric_aggregation_and_bests.1 R0 modelF0 M0 [tb1] (by decide) (by decide)⟩

end
